import Mathlib

/-!
Verification of the ComfyUI idle-detector browser extension
(`js/idle_detector.js`).

The file gives a shallow embedding of the extension's behaviour:

* the mutable fields of `IdleDetectorExtension` become the record `MState`;
* the browser's `setTimeout` / `clearTimeout` machinery becomes an explicit
  scheduler `Sched` holding the pending one-shot timers, with fresh ids;
* `document.hidden` / `document.hasFocus()` become an environment record
  `Env` sampled at the moment a handler runs;
* each outbound `fetch` becomes an element of a returned `List Request`
  (the extension only logs responses, so responses never influence the
  state and are not modelled beyond the `getStatus` return value);
* the host functions patched by the extension become `HostFn` values
  carrying a wrap count and the `isPatchedByIdleDetector` marker.

Theorems after the definitions settle the specification's claims.
-/

namespace IdleDetector

/-- Kind of a pending one-shot timer: the idle timer armed by
`startIdleTimer` (field `activityTimeout`) or the autosave timer armed by
`startAutoSaveTimer` (field `autoSaveTimeout`). -/
inductive TimerKind where
  | idle
  | autosave
deriving DecidableEq, Repr

/-- A pending `setTimeout` registration: its id (as returned by the
browser), the absolute time at which it fires, and which callback it runs. -/
structure Timer where
  id : Nat
  fireTime : Nat
  kind : TimerKind
deriving DecidableEq, Repr

/-- The browser's timer table: a fresh-id counter and the list of pending
one-shot timers.  Browser timer ids are positive, so `some i` in a state
field is exactly JavaScript truthiness of the stored id. -/
structure Sched where
  nextId : Nat
  pending : List Timer
deriving DecidableEq, Repr

/-- `setTimeout(cb, delay)` at absolute time `now`: allocates a fresh id and
registers the timer; returns the id handed back to the caller. -/
def setTimeout (sch : Sched) (fireTime : Nat) (k : TimerKind) : Nat × Sched :=
  (sch.nextId, { nextId := sch.nextId + 1,
                 pending := ⟨sch.nextId, fireTime, k⟩ :: sch.pending })

/-- Removing a timer by id from the pending list; `none` models calling
`clearTimeout` on a `null` handle, which JavaScript ignores. -/
def pendClear (l : List Timer) : Option Nat → List Timer
  | none => l
  | some i => l.filter (fun t => t.id != i)

/-- `clearTimeout(handle)`: cancels the pending timer with that id, if any.
Clearing an id that is no longer pending is a no-op, as in the browser. -/
def clearTimeout (sch : Sched) (o : Option Nat) : Sched :=
  { sch with pending := pendClear sch.pending o }

/-- Timers whose deadline has been reached at time `now`. -/
def dueTimers (sch : Sched) (now : Nat) : List Timer :=
  sch.pending.filter (fun t => decide (t.fireTime ≤ now))

/-- The serialized workflow produced by `app.graph.serialize()`; the
extension never inspects it, so nodes are opaque. -/
structure Workflow where
  nodes : List Nat
deriving DecidableEq, Repr

/-- Body of the autosave POST: `{ workflow, filename }`. -/
structure Payload where
  workflow : Workflow
  filename : String
deriving DecidableEq, Repr

/-- An outbound HTTP request issued via `fetch`. -/
inductive Request where
  | post (url : String) (body : Option Payload)
  | get (url : String)
deriving DecidableEq, Repr

/-- The mutable fields of `IdleDetectorExtension`.  `activityTimeout` and
`autoSaveTimeout` hold the last timer ids handed out by `setTimeout`
(`none` for the initial `null`). -/
structure MState where
  isActive : Bool
  lastActivityTime : Nat
  activityTimeout : Option Nat
  autoSaveTimeout : Option Nat
  inactivityThreshold : Nat
  autoSaveThreshold : Nat
deriving DecidableEq, Repr

/-- The constructor's field initialisation at time `now` (`Date.now()`):
active, no timers armed yet, thresholds 60000 ms and 5000 ms. -/
def initialState (now : Nat) : MState :=
  { isActive := true
    lastActivityTime := now
    activityTimeout := none
    autoSaveTimeout := none
    inactivityThreshold := 60000
    autoSaveThreshold := 5000 }

/-- The browser facts a handler samples when it runs:
`document.hidden` and `document.hasFocus()`. -/
structure Env where
  hidden : Bool
  hasFocus : Bool
deriving DecidableEq, Repr

/-- `setStatus(status)`: returns early when `isActive === (status === 'active')`;
otherwise flips `isActive` and POSTs to the endpoint selected by the same
string test.  The response is only logged, and a network failure is caught
and logged, so neither affects the state or the fact the request was sent. -/
def setStatus (s : MState) (status : String) : MState × List Request :=
  if s.isActive = (status == "active") then
    (s, [])
  else
    ({ s with isActive := status == "active" },
     [Request.post
        (if status == "active" then "/idle_detector/set_active"
         else "/idle_detector/set_idle") none])

/-- Body of the callback armed by `startIdleTimer`, run when the idle timer
fires: commit the idle transition only if the page is visible and focused. -/
def idleTimerFire (env : Env) (s : MState) : MState × List Request :=
  if !env.hidden && env.hasFocus then setStatus s "idle" else (s, [])

/-- `startIdleTimer()`: clears any pending idle timer (the `if
(this.activityTimeout)` guard) and arms a fresh one for
`now + inactivityThreshold`, storing its id. -/
def startIdleTimer (now : Nat) (s : MState) (sch : Sched) : MState × Sched :=
  let sch1 := clearTimeout sch s.activityTimeout
  let r := setTimeout sch1 (now + s.inactivityThreshold) TimerKind.idle
  ({ s with activityTimeout := some r.1 }, r.2)

/-- `startAutoSaveTimer()`: arms the autosave timer for
`now + autoSaveThreshold` without clearing first (its only caller,
`onUserActivity`, has just cleared it). -/
def startAutoSaveTimer (now : Nat) (s : MState) (sch : Sched) : MState × Sched :=
  let r := setTimeout sch (now + s.autoSaveThreshold) TimerKind.autosave
  ({ s with autoSaveTimeout := some r.1 }, r.2)

/-- `onUserActivity()` at time `now`: records the activity time, transitions
to active when currently idle and the page is visible, then cancels and
re-arms both timers. -/
def onUserActivity (now : Nat) (env : Env) (s : MState) (sch : Sched) :
    (MState × Sched) × List Request :=
  let s1 := { s with lastActivityTime := now }
  let pr := if !s1.isActive && !env.hidden then setStatus s1 "active" else (s1, [])
  let s2 := pr.1
  let sch1 := clearTimeout sch s2.activityTimeout
  let r1 := startIdleTimer now s2 sch1
  let sch2 := clearTimeout r1.2 r1.1.autoSaveTimeout
  let r2 := startAutoSaveTimer now r1.1 sch2
  ((r2.1, r2.2), pr.2)

/-- The `visibilitychange` handler: page hidden ⇒ `setStatus('idle')`;
page visible ⇒ `setStatus('active')` then `onUserActivity()`. -/
def onVisibilityChange (now : Nat) (env : Env) (s : MState) (sch : Sched) :
    (MState × Sched) × List Request :=
  if env.hidden then
    let pr := setStatus s "idle"
    ((pr.1, sch), pr.2)
  else
    let pr := setStatus s "active"
    let r := onUserActivity now env pr.1 sch
    ((r.1.1, r.1.2), pr.2 ++ r.2)

/-- JavaScript `a || b` for the filename expression
`app.graph_filename || "autosave.json"`: `null`/`undefined` is `none` and
the empty string is falsy, so both select the default. -/
def jsOrDefault (gf : Option String) (d : String) : String :=
  match gf with
  | none => d
  | some str => if str = "" then d else str

/-- `autoSaveWorkflow()`: computes the filename, serializes the graph and
POSTs `{ workflow, filename }` to `/idle_detector/autosave`.  The whole
body is wrapped in `try`/`catch`, so when the graph accessor is absent
(`app.graph.serialize()` throws, modelled by `none`) the error is logged
and no request is made.  No other condition stops the POST. -/
def autoSaveWorkflow (gf : Option String) (graph : Option Workflow) :
    List Request :=
  match graph with
  | none => []
  | some wf =>
      [Request.post "/idle_detector/autosave"
        (some { workflow := wf, filename := jsOrDefault gf "autosave.json" })]

/-- A host function that the extension may patch: how many extension
wrappers are stacked on it, and whether the wrapper currently installed
carries the `isPatchedByIdleDetector` marker. -/
structure HostFn where
  wrapDepth : Nat
  isPatchedByIdleDetector : Bool
deriving DecidableEq, Repr

/-- The host `app` surface touched by the patching code.  `graphChange` is
optional because the code only patches it under
`if (app.graph && app.graph.change)`. -/
structure HostApp where
  loadWorkflowFromServer : HostFn
  graphClear : HostFn
  handleFile : HostFn
  queuePrompt : HostFn
  graphChange : Option HostFn
deriving DecidableEq, Repr

/-- A host application before any extension setup ran: nothing wrapped,
no marker anywhere, `app.graph.change` present. -/
def freshHostApp : HostApp :=
  { loadWorkflowFromServer := { wrapDepth := 0, isPatchedByIdleDetector := false }
    graphClear := { wrapDepth := 0, isPatchedByIdleDetector := false }
    handleFile := { wrapDepth := 0, isPatchedByIdleDetector := false }
    queuePrompt := { wrapDepth := 0, isPatchedByIdleDetector := false }
    graphChange := some { wrapDepth := 0, isPatchedByIdleDetector := false } }

/-- The guarded patch pattern of `setupFilenameTracking`: skip when the
installed function already carries the marker, otherwise install a new
wrapper and set the marker on it. -/
def patchGuarded (f : HostFn) : HostFn :=
  if f.isPatchedByIdleDetector then f
  else { wrapDepth := f.wrapDepth + 1, isPatchedByIdleDetector := true }

/-- The unguarded wrap pattern of `setupActivityTracking`: always installs
a new wrapper; the new function carries no marker. -/
def wrapUnguarded (f : HostFn) : HostFn :=
  { wrapDepth := f.wrapDepth + 1, isPatchedByIdleDetector := false }

/-- `setupFilenameTracking()`: patches `app.loadWorkflowFromServer`,
`app.graph.clear` and `app.handleFile`, each behind an
`isPatchedByIdleDetector` check. -/
def setupFilenameTracking (a : HostApp) : HostApp :=
  { a with
    loadWorkflowFromServer := patchGuarded a.loadWorkflowFromServer
    graphClear := patchGuarded a.graphClear
    handleFile := patchGuarded a.handleFile }

/-- `setupActivityTracking()`: wraps `app.queuePrompt` and (when present)
`app.graph.change` with activity hooks; no marker is checked or set. -/
def setupActivityTracking (a : HostApp) : HostApp :=
  { a with
    queuePrompt := wrapUnguarded a.queuePrompt
    graphChange := a.graphChange.map wrapUnguarded }

/-- The parsed JSON body of the status response; the extension passes it
through opaquely. -/
abbrev JsonBody := String

/-- Outcome of `await response.json()`: a parsed body, or a rejection. -/
inductive JsonResult where
  | parsed (j : JsonBody)
  | parseError
deriving DecidableEq, Repr

/-- Outcome of `fetch('/idle_detector/status')`: a network-level rejection,
or a response with its `ok` flag and the result of reading its body. -/
inductive FetchOutcome where
  | networkError
  | response (ok : Bool) (body : JsonResult)
deriving DecidableEq, Repr

/-- The `try` block of `getStatus()`: `.error` marks a thrown exception
(fetch rejection, or `response.json()` rejection on an ok response);
`.ok none` marks falling off the end of the block without returning
(the non-ok case). -/
def getStatusTry : FetchOutcome → Except Unit (Option JsonBody)
  | FetchOutcome.networkError => Except.error ()
  | FetchOutcome.response ok body =>
      if ok then
        match body with
        | JsonResult.parsed j => Except.ok (some j)
        | JsonResult.parseError => Except.error ()
      else Except.ok none

/-- `getStatus()`: the `catch` swallows any exception from the `try` block,
and both the catch path and the fall-through path reach `return null`. -/
def getStatus (o : FetchOutcome) : Option JsonBody :=
  match getStatusTry o with
  | Except.ok (some j) => some j
  | Except.ok none => none
  | Except.error _ => none

/-- Two consecutive `onUserActivity` calls, at times `t` then `t'`
(the state and scheduler threaded through; requests dropped). -/
def afterTwoActivities (t t' : Nat) (env env' : Env) (s : MState)
    (sch : Sched) : MState × Sched :=
  let r1 := onUserActivity t env s sch
  (onUserActivity t' env' r1.1.1 r1.1.2).1

/-- The timer-table invariant maintained by the extension: pending ids are
below the fresh-id counter, the stored handles are old ids, every pending
idle timer is the one whose id is stored in `activityTimeout`, every
pending autosave timer is the one stored in `autoSaveTimeout`, and ids are
distinct. -/
def Inv (s : MState) (sch : Sched) : Prop :=
  (∀ t ∈ sch.pending, t.id < sch.nextId) ∧
  (∀ i, s.activityTimeout = some i → i < sch.nextId) ∧
  (∀ i, s.autoSaveTimeout = some i → i < sch.nextId) ∧
  (∀ t ∈ sch.pending, t.kind = TimerKind.idle → s.activityTimeout = some t.id) ∧
  (∀ t ∈ sch.pending, t.kind = TimerKind.autosave → s.autoSaveTimeout = some t.id) ∧
  (sch.pending.map Timer.id).Nodup

/-! ## Helper lemmas -/

/-- Cancelling a timer only removes pending timers. -/
theorem mem_of_mem_pendClear {tm : Timer} {l : List Timer} {o : Option Nat}
    (h : tm ∈ pendClear l o) : tm ∈ l := by
  cases o with
  | none => exact h
  | some i => exact (List.mem_filter.mp h).1

/-- A timer that survives cancellation of id `i` does not have id `i`. -/
theorem id_ne_of_mem_pendClear {tm : Timer} {l : List Timer} {i : Nat}
    (h : tm ∈ pendClear l (some i)) : tm.id ≠ i := by
  have := (List.mem_filter.mp h).2
  simpa using this

/-- A nonempty string has positive length. -/
theorem one_le_length_of_ne_empty (s : String) (h : s ≠ "") : 1 ≤ s.length := by
  cases s with
  | mk data =>
    cases data with
    | nil => exact absurd rfl h
    | cons a l => simp [String.length]

/-- The guarded patch of `setupFilenameTracking` is idempotent: the wrapper
installed by a first patch carries the marker, so a second patch skips. -/
theorem patchGuarded_idem (f : HostFn) : patchGuarded (patchGuarded f) = patchGuarded f := by
  cases f with
  | mk d m => cases m <;> simp [patchGuarded]

/-- Unfolding one `onUserActivity` call: activity time stamped, state set
active when the page is visible (with the corresponding request), the old
idle timer cancelled (twice, matching the code) and a fresh one armed with
id `sch.nextId`, then the old autosave timer cancelled and a fresh one
armed with id `sch.nextId + 1`. -/
theorem onUserActivity_eq (now : Nat) (env : Env) (s : MState) (sch : Sched) :
    onUserActivity now env s sch =
      (({ s with
          isActive := s.isActive || !env.hidden
          lastActivityTime := now
          activityTimeout := some sch.nextId
          autoSaveTimeout := some (sch.nextId + 1) },
        { nextId := sch.nextId + 2
          pending := ⟨sch.nextId + 1, now + s.autoSaveThreshold, TimerKind.autosave⟩ ::
            pendClear (⟨sch.nextId, now + s.inactivityThreshold, TimerKind.idle⟩ ::
              pendClear (pendClear sch.pending s.activityTimeout) s.activityTimeout)
              s.autoSaveTimeout }),
       if !s.isActive && !env.hidden then [Request.post "/idle_detector/set_active" none]
       else []) := by
  cases h1 : s.isActive <;> cases h2 : env.hidden <;>
    simp [onUserActivity, setStatus, startIdleTimer, startAutoSaveTimer, setTimeout,
      clearTimeout, h1, h2]

/-- Under the invariant, the cancellations in `onUserActivity` remove every
previously pending timer: the old idle timer is the one whose id is in
`activityTimeout`, the old autosave timer the one in `autoSaveTimeout`, and
nothing else was pending. -/
theorem pending_collapse (s : MState) (sch : Sched) (h : Inv s sch) (x : Nat) :
    pendClear (⟨sch.nextId, x, TimerKind.idle⟩ ::
        pendClear (pendClear sch.pending s.activityTimeout) s.activityTimeout)
      s.autoSaveTimeout = [⟨sch.nextId, x, TimerKind.idle⟩] := by
  obtain ⟨h1, h2, h3, h4, h5, h6⟩ := h
  have hLauto : ∀ tm ∈ pendClear (pendClear sch.pending s.activityTimeout)
      s.activityTimeout, tm.kind = TimerKind.autosave := by
    intro tm hm
    cases hk : tm.kind with
    | autosave => rfl
    | idle =>
      exfalso
      have hact := h4 tm (mem_of_mem_pendClear (mem_of_mem_pendClear hm)) hk
      cases ha : s.activityTimeout with
      | none => rw [ha] at hact; exact Option.noConfusion hact
      | some i =>
        rw [ha] at hact
        injection hact with hi
        rw [ha] at hm
        exact id_ne_of_mem_pendClear hm hi.symm
  have key : ∀ tm ∈ pendClear (pendClear sch.pending s.activityTimeout)
      s.activityTimeout, s.autoSaveTimeout = some tm.id := by
    intro tm hm
    exact h5 tm (mem_of_mem_pendClear (mem_of_mem_pendClear hm)) (hLauto tm hm)
  cases haa : s.autoSaveTimeout with
  | none =>
    rw [haa] at key
    have hnil : pendClear (pendClear sch.pending s.activityTimeout)
        s.activityTimeout = [] := by
      apply List.eq_nil_iff_forall_not_mem.mpr
      intro tm hm
      exact Option.noConfusion (key tm hm)
    show (⟨sch.nextId, x, TimerKind.idle⟩ : Timer) ::
        pendClear (pendClear sch.pending s.activityTimeout) s.activityTimeout =
      [⟨sch.nextId, x, TimerKind.idle⟩]
    rw [hnil]
  | some j =>
    rw [haa] at key
    have hj : j < sch.nextId := h3 j haa
    show List.filter (fun t => t.id != j) ((⟨sch.nextId, x, TimerKind.idle⟩ : Timer) ::
        pendClear (pendClear sch.pending s.activityTimeout) s.activityTimeout) =
      [⟨sch.nextId, x, TimerKind.idle⟩]
    rw [List.filter_cons]
    have hfil : List.filter (fun t => t.id != j)
        (pendClear (pendClear sch.pending s.activityTimeout) s.activityTimeout) = [] := by
      rw [List.filter_eq_nil_iff]
      intro tm hm
      have hkey := key tm hm
      injection hkey with hkey
      simp [hkey]
    rw [hfil]
    have hb : ((⟨sch.nextId, x, TimerKind.idle⟩ : Timer).id != j) = true := by
      simp
      omega
    simp [hb]

/-- From any state satisfying the invariant, `onUserActivity` leaves exactly
one pending autosave timer and one pending idle timer, both fresh. -/
theorem onUserActivity_result (now : Nat) (env : Env) (s : MState) (sch : Sched)
    (h : Inv s sch) :
    onUserActivity now env s sch =
      (({ s with
          isActive := s.isActive || !env.hidden
          lastActivityTime := now
          activityTimeout := some sch.nextId
          autoSaveTimeout := some (sch.nextId + 1) },
        { nextId := sch.nextId + 2
          pending := [⟨sch.nextId + 1, now + s.autoSaveThreshold, TimerKind.autosave⟩,
                      ⟨sch.nextId, now + s.inactivityThreshold, TimerKind.idle⟩] }),
       if !s.isActive && !env.hidden then [Request.post "/idle_detector/set_active" none]
       else []) := by
  rw [onUserActivity_eq, pending_collapse s sch h]

/-- The invariant holds for the scheduler shape `onUserActivity` produces:
two fresh timers whose ids are the stored handles. -/
theorem Inv_pair (s' : MState) (n x y : Nat)
    (hA : s'.activityTimeout = some n) (hB : s'.autoSaveTimeout = some (n + 1)) :
    Inv s' ⟨n + 2, [⟨n + 1, y, TimerKind.autosave⟩, ⟨n, x, TimerKind.idle⟩]⟩ := by
  refine ⟨?_, ?_, ?_, ?_, ?_, ?_⟩
  · intro t ht
    simp at ht
    rcases ht with h | h <;> simp [h]
  · intro i hi
    rw [hA] at hi
    injection hi with hi
    show i < n + 2
    omega
  · intro i hi
    rw [hB] at hi
    injection hi with hi
    show i < n + 2
    omega
  · intro t ht hk
    simp at ht
    rcases ht with h | h <;> subst h <;> simp_all [hA]
  · intro t ht hk
    simp at ht
    rcases ht with h | h <;> subst h <;> simp_all [hB]
  · simp

/-! ## Claim theorems -/

/-- Claim C1, counterexample: the claim says a transition to idle never
causes an HTTP request.  But with the monitor in its startup state
(`isActive = true`), the page-hide branch of the `visibilitychange`
handler calls `setStatus('idle')`, which POSTs to
`/idle_detector/set_idle`. -/
theorem pageHide_while_active_posts_set_idle :
    (onVisibilityChange 0 ⟨true, true⟩ (initialState 0) ⟨1, []⟩).2 =
      [Request.post "/idle_detector/set_idle" none] := rfl

/-- Claim C1, amended: a transition to idle is transmitted.  Whenever the
page-hide handler runs while `isActive` is true, `setStatus('idle')`
clears the flag and issues exactly one POST to `/idle_detector/set_idle`;
both directions of the state change are sent to the backend. -/
theorem idle_transition_is_transmitted (now : Nat) (env : Env) (s : MState)
    (sch : Sched) (hA : s.isActive = true) (hh : env.hidden = true) :
    onVisibilityChange now env s sch =
      (({ s with isActive := false }, sch),
       [Request.post "/idle_detector/set_idle" none]) := by
  simp [onVisibilityChange, setStatus, hh, hA]

/-- Claim C1, witness for the amended theorem at the startup state. -/
theorem idle_transition_is_transmitted_witness :
    (initialState 7).isActive = true ∧ (Env.mk true true).hidden = true ∧
    onVisibilityChange 9 ⟨true, true⟩ (initialState 7) ⟨1, []⟩ =
      (({ initialState 7 with isActive := false }, ⟨1, []⟩),
       [Request.post "/idle_detector/set_idle" none]) :=
  ⟨rfl, rfl, idle_transition_is_transmitted 9 ⟨true, true⟩ (initialState 7) ⟨1, []⟩ rfl rfl⟩

/-- Claim C2, counterexample: the claim says a workflow serializing to zero
nodes is not sent.  But `autoSaveWorkflow` never inspects the serialized
graph: with no tracked filename and an empty graph it still POSTs the
empty payload to `/idle_detector/autosave`. -/
theorem autosave_empty_graph_still_posts :
    autoSaveWorkflow none (some ⟨[]⟩) =
      [Request.post "/idle_detector/autosave"
        (some { workflow := ⟨[]⟩, filename := "autosave.json" })] := rfl

/-- Claim C2, amended: `autoSaveWorkflow` performs no network call only
when capturing the workflow throws (the graph accessor is absent, so
`app.graph.serialize()` raises and the `catch` swallows it); whenever
serialization succeeds it POSTs the payload unconditionally — there is no
empty-graph suppression. -/
theorem autosave_post_characterization :
    (∀ gf : Option String, autoSaveWorkflow gf none = []) ∧
    (∀ (gf : Option String) (wf : Workflow),
      autoSaveWorkflow gf (some wf) =
        [Request.post "/idle_detector/autosave"
          (some { workflow := wf, filename := jsOrDefault gf "autosave.json" })]) :=
  ⟨fun _ => rfl, fun _ _ => rfl⟩

/-- Claim C3, counterexample: the claim says repeated setup leaves every
host function wrapped exactly once.  But `setupActivityTracking` checks no
marker: run twice on a fresh host it stacks two wrappers on
`app.queuePrompt`. -/
theorem double_activity_setup_wraps_twice :
    (setupActivityTracking (setupActivityTracking freshHostApp)).queuePrompt.wrapDepth
      = 2 := rfl

/-- Claim C3, amended: only the filename-tracking patches are guarded by
the `isPatchedByIdleDetector` marker — `setupFilenameTracking` is
idempotent — while `setupActivityTracking` is unguarded and wraps
`app.queuePrompt` (and `app.graph.change` when present) once more on every
call. -/
theorem setup_wrapping_behavior (a : HostApp) :
    setupFilenameTracking (setupFilenameTracking a) = setupFilenameTracking a ∧
    (setupActivityTracking (setupActivityTracking a)).queuePrompt.wrapDepth =
      a.queuePrompt.wrapDepth + 2 ∧
    (setupActivityTracking (setupActivityTracking a)).graphChange =
      a.graphChange.map (fun g => ⟨g.wrapDepth + 2, false⟩) := by
  refine ⟨?_, ?_, ?_⟩
  · cases a with
    | mk l c h q g => simp [setupFilenameTracking, patchGuarded_idem]
  · simp [setupActivityTracking, wrapUnguarded]
  · cases a with
    | mk l c h q g => cases g <;> simp [setupActivityTracking, wrapUnguarded]

/-- Claim C4, confirmed: `setStatus` is a no-op — same state back, no
request issued — whenever the requested state equals the current one
(`isActive === (status === 'active')`). -/
theorem setStatus_noop_when_state_unchanged (s : MState) (status : String)
    (h : s.isActive = (status == "active")) : setStatus s status = (s, []) := by
  simp [setStatus, h]

/-- Claim C4, witness: requesting `'active'` in the startup state. -/
theorem setStatus_noop_when_state_unchanged_witness :
    (initialState 0).isActive = ("active" == "active") ∧
    setStatus (initialState 0) "active" = (initialState 0, []) :=
  ⟨rfl, setStatus_noop_when_state_unchanged (initialState 0) "active" rfl⟩

/-- Claim C5, confirmed: starting from any state satisfying the timer
invariant, two `onUserActivity` calls at times `t` and `tp` (the second
before the first idle deadline) leave the invariant intact, at most one
pending idle timer and at most one pending autosave timer, and no idle
timer can fire before `tp + inactivityThreshold` nor any autosave timer
before `tp + autoSaveThreshold` — re-arming cancelled the earlier
deadlines. -/
theorem at_most_one_timer_and_rearm_delays_firing (t tp : Nat) (env envp : Env)
    (s : MState) (sch : Sched) (hinv : Inv s sch)
    (ht : tp < t + s.inactivityThreshold) :
    Inv (afterTwoActivities t tp env envp s sch).1
        (afterTwoActivities t tp env envp s sch).2 ∧
    ((afterTwoActivities t tp env envp s sch).2.pending.filter
      (fun tm => decide (tm.kind = TimerKind.idle))).length ≤ 1 ∧
    ((afterTwoActivities t tp env envp s sch).2.pending.filter
      (fun tm => decide (tm.kind = TimerKind.autosave))).length ≤ 1 ∧
    (∀ n, n < tp + s.inactivityThreshold →
      (dueTimers (afterTwoActivities t tp env envp s sch).2 n).filter
        (fun tm => decide (tm.kind = TimerKind.idle)) = []) ∧
    (∀ n, n < tp + s.autoSaveThreshold →
      (dueTimers (afterTwoActivities t tp env envp s sch).2 n).filter
        (fun tm => decide (tm.kind = TimerKind.autosave)) = []) := by
  have e1 := onUserActivity_result t env s sch hinv
  have hInv1 : Inv
      ({ s with
          isActive := s.isActive || !env.hidden
          lastActivityTime := t
          activityTimeout := some sch.nextId
          autoSaveTimeout := some (sch.nextId + 1) } : MState)
      ⟨sch.nextId + 2,
       [⟨sch.nextId + 1, t + s.autoSaveThreshold, TimerKind.autosave⟩,
        ⟨sch.nextId, t + s.inactivityThreshold, TimerKind.idle⟩]⟩ :=
    Inv_pair _ sch.nextId (t + s.inactivityThreshold) (t + s.autoSaveThreshold) rfl rfl
  have e2 := onUserActivity_result tp envp _ _ hInv1
  have hAfter : afterTwoActivities t tp env envp s sch =
      ({ s with
          isActive := (s.isActive || !env.hidden) || !envp.hidden
          lastActivityTime := tp
          activityTimeout := some (sch.nextId + 2)
          autoSaveTimeout := some (sch.nextId + 2 + 1) },
       ⟨sch.nextId + 2 + 2,
        [⟨sch.nextId + 2 + 1, tp + s.autoSaveThreshold, TimerKind.autosave⟩,
         ⟨sch.nextId + 2, tp + s.inactivityThreshold, TimerKind.idle⟩]⟩) := by
    show (onUserActivity tp envp (onUserActivity t env s sch).1.1
        (onUserActivity t env s sch).1.2).1 = _
    rw [e1]
    exact congrArg Prod.fst e2
  rw [hAfter]
  refine ⟨Inv_pair _ (sch.nextId + 2) (tp + s.inactivityThreshold)
      (tp + s.autoSaveThreshold) rfl rfl, ?_, ?_, ?_, ?_⟩
  · simp
  · simp
  · intro n hn
    rw [List.filter_eq_nil_iff]
    intro a ha
    simp only [dueTimers] at ha
    obtain ⟨hp, hdec⟩ := List.mem_filter.mp ha
    have hle : a.fireTime ≤ n := of_decide_eq_true hdec
    simp at hp
    rcases hp with rfl | rfl
    · simp
    · exfalso
      simp at hle
      omega
  · intro n hn
    rw [List.filter_eq_nil_iff]
    intro a ha
    simp only [dueTimers] at ha
    obtain ⟨hp, hdec⟩ := List.mem_filter.mp ha
    have hle : a.fireTime ≤ n := of_decide_eq_true hdec
    simp at hp
    rcases hp with rfl | rfl
    · exfalso
      simp at hle
      omega
    · simp

/-- Claim C5, witness: the spec's own scenario — activity at t = 0 and at
t = 3000 ms from the startup state — instantiating the theorem. -/
theorem at_most_one_timer_and_rearm_delays_firing_witness :
    Inv (initialState 0) ⟨1, []⟩ ∧
    3000 < 0 + (initialState 0).inactivityThreshold ∧
    (Inv (afterTwoActivities 0 3000 ⟨false, true⟩ ⟨false, true⟩ (initialState 0) ⟨1, []⟩).1
        (afterTwoActivities 0 3000 ⟨false, true⟩ ⟨false, true⟩ (initialState 0) ⟨1, []⟩).2 ∧
     ((afterTwoActivities 0 3000 ⟨false, true⟩ ⟨false, true⟩ (initialState 0)
        ⟨1, []⟩).2.pending.filter (fun tm => decide (tm.kind = TimerKind.idle))).length ≤ 1 ∧
     ((afterTwoActivities 0 3000 ⟨false, true⟩ ⟨false, true⟩ (initialState 0)
        ⟨1, []⟩).2.pending.filter (fun tm => decide (tm.kind = TimerKind.autosave))).length ≤ 1 ∧
     (∀ n, n < 3000 + (initialState 0).inactivityThreshold →
       (dueTimers (afterTwoActivities 0 3000 ⟨false, true⟩ ⟨false, true⟩ (initialState 0)
          ⟨1, []⟩).2 n).filter (fun tm => decide (tm.kind = TimerKind.idle)) = []) ∧
     (∀ n, n < 3000 + (initialState 0).autoSaveThreshold →
       (dueTimers (afterTwoActivities 0 3000 ⟨false, true⟩ ⟨false, true⟩ (initialState 0)
          ⟨1, []⟩).2 n).filter (fun tm => decide (tm.kind = TimerKind.autosave)) = [])) := by
  have hi : Inv (initialState 0) ⟨1, []⟩ := by
    refine ⟨?_, ?_, ?_, ?_, ?_, ?_⟩ <;> simp [initialState]
  have hl : 3000 < 0 + (initialState 0).inactivityThreshold := by
    norm_num [initialState]
  exact ⟨hi, hl, at_most_one_timer_and_rearm_delays_firing 0 3000 ⟨false, true⟩
    ⟨false, true⟩ (initialState 0) ⟨1, []⟩ hi hl⟩

/-- Claim C6, confirmed: when the idle timer fires while the monitor is
active, the idle transition is committed (`isActive` becomes false) exactly
when the page is visible and the document focused; if the page is hidden
or unfocused the expiry handler changes nothing and sends nothing. -/
theorem idle_expiry_commits_iff_visible_and_focused (env : Env) (s : MState)
    (h : s.isActive = true) :
    (((idleTimerFire env s).1.isActive = false) ↔
      (env.hidden = false ∧ env.hasFocus = true)) ∧
    ((env.hidden = true ∨ env.hasFocus = false) → idleTimerFire env s = (s, [])) := by
  cases hh : env.hidden <;> cases hf : env.hasFocus <;>
    simp [idleTimerFire, setStatus, h, hh, hf]

/-- Claim C6, witness at a visible, focused page in the startup state. -/
theorem idle_expiry_commits_iff_visible_and_focused_witness :
    (initialState 0).isActive = true ∧
    ((((idleTimerFire ⟨false, true⟩ (initialState 0)).1.isActive = false) ↔
      ((Env.mk false true).hidden = false ∧ (Env.mk false true).hasFocus = true)) ∧
    (((Env.mk false true).hidden = true ∨ (Env.mk false true).hasFocus = false) →
      idleTimerFire ⟨false, true⟩ (initialState 0) = (initialState 0, []))) :=
  ⟨rfl, idle_expiry_commits_iff_visible_and_focused ⟨false, true⟩ (initialState 0) rfl⟩

/-- Claim C7, confirmed: `getStatus` is a total function of the fetch
outcome — the `try`/`catch` swallows the network rejection and the body
rejection — returning the parsed body exactly on an ok response whose body
parses, and the sentinel `none` (JavaScript `null`) in every other case. -/
theorem getStatus_never_throws_characterization (o : FetchOutcome) :
    getStatus o = (match o with
      | FetchOutcome.response true (JsonResult.parsed j) => some j
      | _ => none) := by
  cases o with
  | networkError => rfl
  | response ok body => cases ok <;> cases body <;> rfl

/-- Claim C8, confirmed: every autosave payload carries
`app.graph_filename || "autosave.json"` as its filename; that string is
the tracked name when it is set and truthy (a non-empty string) and the
constant `"autosave.json"` when the tracked name is null or empty, and is
non-empty in every case. -/
theorem autosave_filename_nonempty (gf : Option String) (wf : Workflow) :
    autoSaveWorkflow gf (some wf) =
      [Request.post "/idle_detector/autosave"
        (some { workflow := wf, filename := jsOrDefault gf "autosave.json" })] ∧
    1 ≤ (jsOrDefault gf "autosave.json").length ∧
    jsOrDefault none "autosave.json" = "autosave.json" ∧
    (∀ str : String, jsOrDefault (some str) "autosave.json" =
      if str = "" then "autosave.json" else str) := by
  refine ⟨rfl, ?_, rfl, fun str => rfl⟩
  cases gf with
  | none => show 1 ≤ ("autosave.json".length); decide
  | some str =>
    by_cases hstr : str = ""
    · simp only [jsOrDefault, hstr, if_pos rfl]
      decide
    · simpa [jsOrDefault, hstr] using one_le_length_of_ne_empty str hstr

/-- Claim C9, confirmed: the constructor initialises `isActive` to true,
and the initial `setStatus('active')` call hits the equal-state guard, so
it changes nothing and issues no request. -/
theorem startup_active_and_initial_setStatus_silent (now : Nat) :
    (initialState now).isActive = true ∧
    setStatus (initialState now) "active" = (initialState now, []) :=
  ⟨rfl, by simp [setStatus, initialState]⟩

/-- Claim C10, confirmed: `setStatus` only tests `status === 'active'`, so
any other string — `'idle'`, `'Active'`, anything — requested while the
monitor is active clears `isActive` and selects the
`/idle_detector/set_idle` endpoint. -/
theorem setStatus_nonactive_string_selects_idle (s : MState) (status : String)
    (hs : s.isActive = true) (hne : status ≠ "active") :
    setStatus s status =
      ({ s with isActive := false }, [Request.post "/idle_detector/set_idle" none]) := by
  have hb : (status == "active") = false := by simp [hne]
  simp [setStatus, hs, hb]

/-- Claim C10, witness at the string `'Active'` (wrong capitalisation). -/
theorem setStatus_nonactive_string_selects_idle_witness :
    (initialState 0).isActive = true ∧ "Active" ≠ "active" ∧
    setStatus (initialState 0) "Active" =
      ({ initialState 0 with isActive := false },
       [Request.post "/idle_detector/set_idle" none]) :=
  ⟨rfl, by decide,
   setStatus_nonactive_string_selects_idle (initialState 0) "Active" rfl (by decide)⟩

end IdleDetector
